import Mathlib

/-!
Verification of the todo query engine of the `toDoLIst` repository
(`filterTodos`, `countTodosDueToday`, `isToday` from the frontend utility
module, and the `TodoItem` record from the types module).

Modelling decisions (shallow embedding of the TypeScript source):

* A JavaScript `Date` is modelled by `JSDate`: either a valid date carrying
  the calendar components observable through `getFullYear` / `getMonth` /
  `getDate` together with a time-of-day part (`hours`, `minutes`), or the
  JavaScript "Invalid Date" whose component getters all return `NaN`.
  Since `NaN === NaN` is `false` in JavaScript, every component comparison
  against an invalid date is `false`; `JSDate.invalid` is handled
  accordingly in `isToday`.
* The ambient wall clock: the source calls `new Date()` inside `isToday`.
  `new Date()` always produces a valid date, so the current moment is
  modelled as an explicit `JSDateFields` parameter `now` threaded through
  `isToday`, `filterTodos` and `countTodosDueToday` (the clock does not
  tick during a single synchronous call).
* The TypeScript `FilterOption` string-literal union is modelled as
  `String`; the `switch` statement performs sequential strict string
  comparisons with a `default` branch, embedded as an if-chain on string
  equality in source order (`"all"`, `"dueToday"`, `"completed"`, default).
* `new Date(todo.dueDate)` applied to a stored date value yields an equal
  date (a copy), and yields Invalid Date when the stored value is
  malformed; in the model the stored `dueDate` is already a `JSDate` and
  the copy is the identity.
-/

/-- Calendar and time-of-day components of a valid JavaScript date, as
observed by `getFullYear` (year), `getMonth` (0–11), `getDate` (1–31),
plus the time-of-day part that `isToday` never inspects. -/
structure JSDateFields where
  year : Int
  month : Int
  day : Int
  hours : Int
  minutes : Int
deriving DecidableEq

/-- A JavaScript `Date` value: valid with its components, or Invalid Date
(all component getters return `NaN`, so every `===` comparison of a
component is `false`). -/
inductive JSDate where
  | valid (d : JSDateFields)
  | invalid
deriving DecidableEq

/-- The `TodoTag` enum from the types module. -/
inductive TodoTag where
  | Work
  | Personal
  | Home
  | Health
deriving DecidableEq

/-- The `Priority` enum from the types module. -/
inductive Priority where
  | high
  | medium
  | low
deriving DecidableEq

/-- The `TodoItem` interface from the types module. -/
structure TodoItem where
  name : String
  dueDate : JSDate
  done : Bool
  description : String
  tag : TodoTag
  priority : Priority
deriving DecidableEq

/-- `isToday` from the utility module: compares `getDate`, `getMonth` and
`getFullYear` of the given date against `new Date()` (the current moment
`now`).  An Invalid Date has `NaN` components and `NaN === NaN` is
`false`, so it never compares equal. -/
def isToday (now : JSDateFields) (date : JSDate) : Bool :=
  match date with
  | JSDate.valid d =>
      d.day == now.day && d.month == now.month && d.year == now.year
  | JSDate.invalid => false

/-- `filterTodos` from the utility module: a `switch` on the filter string
with cases `"all"`, `"dueToday"`, `"completed"` and a `default` branch
returning the input, embedded as sequential strict string comparisons. -/
def filterTodos (now : JSDateFields) (todos : List TodoItem)
    (filter : String) : List TodoItem :=
  if filter = "all" then todos
  else if filter = "dueToday" then
    todos.filter (fun todo => !todo.done && isToday now todo.dueDate)
  else if filter = "completed" then
    todos.filter (fun todo => todo.done)
  else todos

/-- `countTodosDueToday` from the utility module: the length of the list of
todos that are not done and due today. -/
def countTodosDueToday (now : JSDateFields) (todos : List TodoItem) : Nat :=
  (todos.filter (fun todo => !todo.done && isToday now todo.dueDate)).length

/-- Written from the spec's words, to be compared with the code: a task is
due today when its `done` flag is `false` and its `dueDate` falls on the
current calendar day, where day-equality compares only the year, month and
day components (time-of-day ignored, same timezone basis for both dates);
a date that is not a valid date falls on no calendar day. -/
def dueTodaySpec (now : JSDateFields) (t : TodoItem) : Bool :=
  !t.done &&
    (match t.dueDate with
     | JSDate.valid d =>
         d.year == now.year && d.month == now.month && d.day == now.day
     | JSDate.invalid => false)

/-- Sample current moment used in witness statements. -/
def sampleNow : JSDateFields :=
  { year := 2026, month := 9, day := 11, hours := 10, minutes := 30 }

/-- Sample task due today at a different time of day, not done. -/
def sampleTask : TodoItem :=
  { name := "write report"
  , dueDate := JSDate.valid
      { year := 2026, month := 9, day := 11, hours := 23, minutes := 59 }
  , done := false
  , description := "quarterly report"
  , tag := TodoTag.Work
  , priority := Priority.high }

/-- Sample task whose due date is the JavaScript Invalid Date. -/
def badDateTask : TodoItem :=
  { name := "mystery"
  , dueDate := JSDate.invalid
  , done := false
  , description := ""
  , tag := TodoTag.Personal
  , priority := Priority.low }

theorem code_pred_eq_spec_pred (now : JSDateFields) (t : TodoItem) :
    (!t.done && isToday now t.dueDate) = dueTodaySpec now t := by
  cases h : t.dueDate with
  | invalid => simp [isToday, dueTodaySpec, h]
  | valid d =>
      cases ht : t.done <;>
        cases hd : (d.day == now.day) <;>
          cases hm : (d.month == now.month) <;>
            cases hy : (d.year == now.year) <;>
              simp [isToday, dueTodaySpec, h, ht, hd, hm, hy]

/-- C1: for every sequence of tasks `T`, `filterTodos T dueToday` contains
exactly the elements of `T` whose `done` flag is `false` and whose
`dueDate` falls on the current calendar day (year/month/day compared,
time-of-day ignored, same `now` basis), in their original relative
order — i.e. it equals `T` filtered by the spec's due-today predicate. -/
theorem filterTodos_dueToday_spec (now : JSDateFields) (T : List TodoItem) :
    filterTodos now T "dueToday" = T.filter (dueTodaySpec now) := by
  show T.filter (fun todo => !todo.done && isToday now todo.dueDate)
      = T.filter (dueTodaySpec now)
  exact List.filter_congr (fun x _ => code_pred_eq_spec_pred now x)

/-- C2: for every sequence of tasks `T`, `countTodosDueToday T` equals the
length of `filterTodos T dueToday`: both use the same due-today test. -/
theorem countTodosDueToday_eq_length_filter (now : JSDateFields)
    (T : List TodoItem) :
    countTodosDueToday now T = (filterTodos now T "dueToday").length := rfl

/-- C3: for every sequence of tasks `T`, `filterTodos T completed` contains
exactly the elements of `T` with `done == true`, in their original
relative order — i.e. it equals `T` filtered by the `done` flag. -/
theorem filterTodos_completed_spec (now : JSDateFields) (T : List TodoItem) :
    filterTodos now T "completed" = T.filter (fun t => t.done) := rfl

/-- C4: for every sequence of tasks `T`, `filterTodos T all` returns `T`
itself: same elements, same order, nothing added, removed or reordered. -/
theorem filterTodos_all_id (now : JSDateFields) (T : List TodoItem) :
    filterTodos now T "all" = T := rfl

/-- C5: for every sequence of tasks `T` and every filter value outside the
closed set (all, dueToday, completed), `filterTodos` returns the input
sequence unchanged — the `default` branch fails open, raising no error. -/
theorem filterTodos_unrecognized_fail_open (now : JSDateFields)
    (T : List TodoItem) (f : String)
    (h1 : f ≠ "all") (h2 : f ≠ "dueToday") (h3 : f ≠ "completed") :
    filterTodos now T f = T := by
  unfold filterTodos
  rw [if_neg h1, if_neg h2, if_neg h3]

theorem filterTodos_unrecognized_fail_open_witness :
    filterTodos sampleNow [sampleTask] "dueTomorrow" = [sampleTask] :=
  filterTodos_unrecognized_fail_open sampleNow [sampleTask] "dueTomorrow"
    (by decide) (by decide) (by decide)

/-- C6: a task whose `dueDate` is malformed (the JavaScript Invalid Date,
whose components are `NaN`) never matches `dueToday`: it is excluded from
`filterTodos T dueToday` and contributes nothing to `countTodosDueToday`,
and no error arises (both functions are total). -/
theorem invalid_dueDate_never_matches (now : JSDateFields) (t : TodoItem)
    (T : List TodoItem) (h : t.dueDate = JSDate.invalid) :
    t ∉ filterTodos now T "dueToday" ∧
      countTodosDueToday now (t :: T) = countTodosDueToday now T := by
  constructor
  · intro hmem
    have hmem' : t ∈ T.filter
        (fun todo => !todo.done && isToday now todo.dueDate) := hmem
    have := List.of_mem_filter hmem'
    rw [h] at this
    simp [isToday] at this
  · show (List.filter _ (t :: T)).length = _
    rw [List.filter_cons]
    simp [h, isToday, countTodosDueToday]

theorem invalid_dueDate_never_matches_witness :
    badDateTask ∉ filterTodos sampleNow [badDateTask, sampleTask] "dueToday" ∧
      countTodosDueToday sampleNow (badDateTask :: [sampleTask])
        = countTodosDueToday sampleNow [sampleTask] :=
  invalid_dueDate_never_matches sampleNow badDateTask [sampleTask] rfl

/-- C7: `countTodosDueToday []` is `0` on the empty sequence, and for every
sequence of tasks `T` the count is a non-negative integer. -/
theorem countTodosDueToday_nil_and_nonneg (now : JSDateFields)
    (T : List TodoItem) :
    countTodosDueToday now ([] : List TodoItem) = 0 ∧
      (0 : Int) ≤ (countTodosDueToday now T : Int) :=
  ⟨rfl, Int.ofNat_nonneg _⟩

/-- C8: `filterTodos` and `countTodosDueToday` are deterministic: two
invocations with the same task sequence, the same filter value and the
same current moment `now` produce identical outputs; `now` is the only
ambient input and no hidden state is captured across calls. -/
theorem filterTodos_count_deterministic (now₁ now₂ : JSDateFields)
    (T : List TodoItem) (f : String) (h : now₁ = now₂) :
    filterTodos now₁ T f = filterTodos now₂ T f ∧
      countTodosDueToday now₁ T = countTodosDueToday now₂ T := by
  subst h
  exact ⟨rfl, rfl⟩

theorem filterTodos_count_deterministic_witness :
    filterTodos sampleNow [sampleTask] "completed"
        = filterTodos sampleNow [sampleTask] "completed" ∧
      countTodosDueToday sampleNow [sampleTask]
        = countTodosDueToday sampleNow [sampleTask] :=
  filterTodos_count_deterministic sampleNow sampleNow [sampleTask]
    "completed" rfl

/-- C9: `filterTodos` has no side effects: in this pure embedding the input
list is a value that the call cannot mutate or reorder, and every task
record in the output is literally an element of the input — no task is
created or altered by the call. -/
theorem filterTodos_no_mutation (now : JSDateFields) (T : List TodoItem)
    (f : String) :
    ∀ x, x ∈ filterTodos now T f → x ∈ T := by
  intro x hx
  unfold filterTodos at hx
  split_ifs at hx with h1 h2 h3
  · exact hx
  · exact List.mem_of_mem_filter hx
  · exact List.mem_of_mem_filter hx
  · exact hx

theorem filterTodos_no_mutation_witness :
    sampleTask ∈ [badDateTask, sampleTask] :=
  filterTodos_no_mutation sampleNow [badDateTask, sampleTask] "all"
    sampleTask (by decide)

/-- C10: for every sequence of tasks `T` and every filter value, recognized
or not, `filterTodos T f` is a subsequence of `T`: relative order is
preserved, no element occurs more often than in `T`, and the output's
length never exceeds that of `T`. -/
theorem filterTodos_sublist (now : JSDateFields) (T : List TodoItem)
    (f : String) :
    List.Sublist (filterTodos now T f) T ∧
      (∀ x : TodoItem, (filterTodos now T f).count x ≤ T.count x) ∧
      (filterTodos now T f).length ≤ T.length := by
  have h : List.Sublist (filterTodos now T f) T := by
    unfold filterTodos
    split_ifs with h1 h2 h3
    · exact List.Sublist.refl T
    · exact List.filter_sublist T
    · exact List.filter_sublist T
    · exact List.Sublist.refl T
  exact ⟨h, fun x => h.count_le x, h.length_le⟩
